import Mathlib

/-!
Shallow embedding of src/netlify/functions/seatsio-handler.js.

The handler is a Netlify serverless function.  We model:
  - JSON values (numbers as integers, which covers every value the
    handler inspects),
  - the inbound event (HTTP method, lowercased authorization header,
    raw body as a JSON-parse outcome),
  - the three environment secrets,
  - the upstream seats.io API as an oracle giving the response to the
    hold-token call and to the booking call,
  - the handler itself as a pure function returning the HTTP response
    together with the list of outbound fetch calls it performed.
Thrown JS errors are modelled with an Except channel that the
top-level catch converts to the 500 JSON error response.
-/

namespace SeatsIO

/- JSON values as produced by JSON.parse.  Arrays and objects are
separate mutual inductives so that all recursions are structural. -/
mutual
inductive Json where
  | str (s : String)
  | num (n : Int)
  | bool (b : Bool)
  | null
  | arr (xs : JsonArr)
  | obj (fs : JsonObj)

inductive JsonArr where
  | nil
  | cons (v : Json) (rest : JsonArr)

inductive JsonObj where
  | nil
  | cons (k : String) (v : Json) (rest : JsonObj)
end

/-- Field lookup in a parsed JSON object (JSON.parse never yields
duplicate keys, so first-match lookup is unambiguous). -/
def JsonObj.lookup : JsonObj → String → Option Json
  | .nil, _ => none
  | .cons k v rest, key => if k == key then some v else rest.lookup key

/-- JS property access `v.p`: undefined on primitives and arrays,
a thrown TypeError on null, field lookup on objects. -/
def getProp : Json → String → Except String (Option Json)
  | .null, p => .error ("Cannot read properties of null (reading " ++ p ++ ")")
  | .obj fs, p => .ok (fs.lookup p)
  | _, _ => .ok none

/-- JS truthiness of a possibly-undefined value, as used by
`if (!seatId || !holdToken)`. -/
def truthy : Option Json → Bool
  | none => false
  | some .null => false
  | some (.bool b) => b
  | some (.str s) => !(s == "")
  | some (.num n) => !(n == 0)
  | some (.arr _) => true
  | some (.obj _) => true

/-- JS strict equality `v === "lit"` where `v` may be undefined. -/
def strictEqStr : Option Json → String → Bool
  | some (.str s), t => s == t
  | _, _ => false

/- JS string coercion, as performed by the template literal
interpolating seatId into the booking success message. -/
mutual
def jsToString : Json → String
  | .str s => s
  | .num n => toString n
  | .bool b => cond b "true" "false"
  | .null => "null"
  | .arr xs => String.intercalate "," (jsArrElems xs)
  | .obj _ => "[object Object]"

def jsArrElems : JsonArr → List String
  | .nil => []
  | .cons .null rest => "" :: jsArrElems rest
  | .cons v rest => jsToString v :: jsArrElems rest
end

def hexDigit (n : Nat) : Char :=
  if n < 10 then Char.ofNat (48 + n) else Char.ofNat (87 + n)

/-- JSON.stringify escaping of one character inside a string. -/
def escapeChar (c : Char) : String :=
  if c = Char.ofNat 34 then "\\\""
  else if c = Char.ofNat 92 then "\\\\"
  else if c = Char.ofNat 8 then "\\b"
  else if c = Char.ofNat 9 then "\\t"
  else if c = Char.ofNat 10 then "\\n"
  else if c = Char.ofNat 12 then "\\f"
  else if c = Char.ofNat 13 then "\\r"
  else if c.toNat < 32 then
    "\\u00" ++ String.singleton (hexDigit (c.toNat / 16)) ++
      String.singleton (hexDigit (c.toNat % 16))
  else String.singleton c

def quoteJson (s : String) : String :=
  "\"" ++ String.join (s.data.map escapeChar) ++ "\""

/- JSON.stringify on defined JSON values. -/
mutual
def stringify : Json → String
  | .str s => quoteJson s
  | .num n => toString n
  | .bool b => cond b "true" "false"
  | .null => "null"
  | .arr xs => "[" ++ stringifyArr xs ++ "]"
  | .obj fs => "\x7b" ++ stringifyObj fs ++ "\x7d"

def stringifyArr : JsonArr → String
  | .nil => ""
  | .cons v .nil => stringify v
  | .cons v rest => stringify v ++ "," ++ stringifyArr rest

def stringifyObj : JsonObj → String
  | .nil => ""
  | .cons k v .nil => quoteJson k ++ ":" ++ stringify v
  | .cons k v rest => quoteJson k ++ ":" ++ stringify v ++ "," ++ stringifyObj rest
end

/-- JSON.stringify applied to a JS object literal whose field values may
be undefined: undefined-valued properties are omitted. -/
def stringifyLit (fields : List (String × Option Json)) : String :=
  "\x7b" ++ String.intercalate ","
    (fields.filterMap (fun p => p.2.map (fun v => quoteJson p.1 ++ ":" ++ stringify v)))
  ++ "\x7d"

def base64Char (n : Nat) : Char :=
  if n < 26 then Char.ofNat (65 + n)
  else if n < 52 then Char.ofNat (97 + (n - 26))
  else if n < 62 then Char.ofNat (48 + (n - 52))
  else if n = 62 then Char.ofNat 43
  else Char.ofNat 47

def base64Encode : List Nat → String
  | [] => ""
  | [b1] =>
    String.singleton (base64Char (b1 / 4)) ++
    String.singleton (base64Char (b1 % 4 * 16)) ++ "=="
  | [b1, b2] =>
    String.singleton (base64Char (b1 / 4)) ++
    String.singleton (base64Char (b1 % 4 * 16 + b2 / 16)) ++
    String.singleton (base64Char (b2 % 16 * 4)) ++ "="
  | b1 :: b2 :: b3 :: rest =>
    String.singleton (base64Char (b1 / 4)) ++
    String.singleton (base64Char (b1 % 4 * 16 + b2 / 16)) ++
    String.singleton (base64Char (b2 % 16 * 4 + b3 / 64)) ++
    String.singleton (base64Char (b3 % 64)) ++
    base64Encode rest

/-- btoa: Base64 of a latin1 string; throws (none) when a character
code exceeds 255. -/
def btoa (s : String) : Option String :=
  if s.data.all (fun c => c.toNat < 256) then
    some (base64Encode (s.data.map Char.toNat))
  else none

/-- The three environment secrets read by the handler. -/
structure SecretConfig where
  SEATSIO_SECRET_KEY : String
  SEATSIO_EVENT_KEY : String
  GHL_WEBHOOK_SECRET : String

/-- The outcome of JSON.parse(event.body || "\x7b\x7d"): an absent or
empty body falls back to the empty-object literal. -/
inductive RawBody where
  | absent
  | wellFormed (v : Json)
  | malformed (msg : String)

/-- The inbound Netlify event: method, the (lowercased) authorization
header if present, and the raw body. -/
structure Event where
  httpMethod : String
  authorization : Option String
  body : RawBody

/-- One upstream seats.io response: ok flag, text body (read on the
error path), and JSON body (read on the hold-token success path). -/
structure UpstreamResp where
  ok : Bool
  text : String
  json : Except String Json

/-- The upstream API oracle: what it would answer to the hold-token
call and to the booking call. -/
structure Upstream where
  holdResp : UpstreamResp
  bookResp : UpstreamResp

/-- An outbound fetch performed by the handler. -/
structure OutboundCall where
  url : String
  method : String
  authorization : String
  contentTypeJson : Bool
  body : Option String

/-- The HTTP response returned by the handler. -/
structure Response where
  statusCode : Nat
  headers : List (String × String)
  body : String

def corsHeaders : List (String × String) :=
  [("Access-Control-Allow-Origin", "*"),
   ("Access-Control-Allow-Headers", "Content-Type, Authorization"),
   ("Access-Control-Allow-Methods", "POST, OPTIONS")]

def parseBody : RawBody → Except String Json
  | .absent => .ok (.obj .nil)
  | .wellFormed v => .ok v
  | .malformed m => .error m

def holdCall (cred : String) : OutboundCall :=
  { url := "https://api.seats.io/hold-tokens"
    method := "POST"
    authorization := "Basic " ++ cred
    contentTypeJson := false
    body := none }

def bookCall (cred : String) (eventKey : String) (seatId holdToken : Json) : OutboundCall :=
  { url := "https://api.seats.io/events/" ++ eventKey ++ "/actions/book"
    method := "POST"
    authorization := "Basic " ++ cred
    contentTypeJson := true
    body := some (stringifyLit
      [("objects", some (.arr (.cons seatId .nil))), ("holdToken", some holdToken)]) }

def btoaErrorMsg : String :=
  "The string to be encoded contains characters outside of the Latin1 range."

/-- The body of the try block (lines 39-102 of the source): either a
response to return, or a thrown error message for the catch block;
paired with the outbound calls made before returning/throwing. -/
def runTry (cfg : SecretConfig) (up : Upstream) (ev : Event) :
    Except String Response × List OutboundCall :=
  match parseBody ev.body with
  | .error m => (.error m, [])
  | .ok body =>
    match getProp body "action" with
    | .error m => (.error m, [])
    | .ok action =>
      if strictEqStr action "createHoldToken" then
        match btoa (cfg.SEATSIO_SECRET_KEY ++ ":") with
        | none => (.error btoaErrorMsg, [])
        | some cred =>
          if up.holdResp.ok then
            match up.holdResp.json with
            | .error m => (.error m, [holdCall cred])
            | .ok j =>
              match getProp j "holdToken" with
              | .error m => (.error m, [holdCall cred])
              | .ok tok =>
                (.ok { statusCode := 200, headers := corsHeaders
                       body := stringifyLit
                         [("holdToken", tok),
                          ("eventKey", some (.str cfg.SEATSIO_EVENT_KEY))] },
                 [holdCall cred])
          else
            (.error ("seats.io API error: " ++ up.holdResp.text), [holdCall cred])
      else if strictEqStr action "bookSeat" then
        if ev.authorization != some ("Bearer " ++ cfg.GHL_WEBHOOK_SECRET) then
          (.ok { statusCode := 401, headers := [], body := "Unauthorized" }, [])
        else
          match getProp body "seatId", getProp body "holdToken" with
          | .error m, _ => (.error m, [])
          | .ok _, .error m => (.error m, [])
          | .ok (some sv), .ok (some hv) =>
            if !truthy (some sv) || !truthy (some hv) then
              (.error "Missing required parameters: seatId or holdToken.", [])
            else
              match btoa (cfg.SEATSIO_SECRET_KEY ++ ":") with
              | none => (.error btoaErrorMsg, [])
              | some cred =>
                if up.bookResp.ok then
                  (.ok { statusCode := 200, headers := corsHeaders
                         body := stringifyLit
                           [("success", some (.bool true)),
                            ("message", some (.str
                              ("Seat " ++ jsToString sv ++ " booked successfully.")))] },
                   [bookCall cred cfg.SEATSIO_EVENT_KEY sv hv])
                else
                  (.error ("seats.io API error during booking: " ++ up.bookResp.text),
                   [bookCall cred cfg.SEATSIO_EVENT_KEY sv hv])
          | .ok _, .ok _ =>
            (.error "Missing required parameters: seatId or holdToken.", [])
      else
        (.error "Invalid action specified in request body.", [])

/-- exports.handler: preflight check first, then the try block, with
the catch converting a thrown message to the 500 JSON error. -/
def handler (cfg : SecretConfig) (up : Upstream) (ev : Event) :
    Response × List OutboundCall :=
  if ev.httpMethod == "OPTIONS" then
    ({ statusCode := 204, headers := corsHeaders, body := "" }, [])
  else
    match runTry cfg up ev with
    | (.ok r, calls) => (r, calls)
    | (.error m, calls) =>
      ({ statusCode := 500, headers := corsHeaders
         body := stringifyLit [("error", some (.str m))] }, calls)

/-- Substring occurrence test used to state that a secret appears in
a response body. -/
def chPref : List Char → List Char → Bool
  | [], _ => true
  | _ :: _, [] => false
  | a :: as, b :: bs => a == b && chPref as bs

def chOccurs (ns : List Char) : List Char → Bool
  | [] => chPref ns []
  | h :: t => chPref ns (h :: t) || chOccurs ns t

def occursIn (needle hay : String) : Bool := chOccurs needle.data hay.data

/-! Helper lemmas -/

lemma strictEqStr_eq_false_of_ne {o : Option Json} {s : String}
    (h : o ≠ some (.str s)) : strictEqStr o s = false := by
  match o with
  | none => rfl
  | some (.num _) => rfl
  | some (.bool _) => rfl
  | some .null => rfl
  | some (.arr _) => rfl
  | some (.obj _) => rfl
  | some (.str t) =>
    simp only [strictEqStr, beq_eq_false_iff_ne, ne_eq]
    intro ht
    exact h (by rw [ht])

lemma strictEqStr_self (s : String) : strictEqStr (some (.str s)) s = true := by
  simp [strictEqStr]

/-- The requested-but-missing-parameters path of the bookSeat branch,
shared shape: authorized, but one of the two fields is not truthy. -/
lemma handler_bookSeat_missing (cfg : SecretConfig) (up : Upstream) (ev : Event)
    (v : Json) (sId hT : Option Json)
    (hm : ev.httpMethod ≠ "OPTIONS")
    (hb : parseBody ev.body = .ok v)
    (ha : getProp v "action" = .ok (some (.str "bookSeat")))
    (hauth : ev.authorization = some ("Bearer " ++ cfg.GHL_WEBHOOK_SECRET))
    (hs : getProp v "seatId" = .ok sId)
    (ht : getProp v "holdToken" = .ok hT)
    (hmiss : truthy sId = false ∨ truthy hT = false) :
    handler cfg up ev =
      ({ statusCode := 500, headers := corsHeaders
         body := stringifyLit [("error",
           some (.str "Missing required parameters: seatId or holdToken."))] }, []) := by
  have hne : strictEqStr (some (Json.str "bookSeat")) "createHoldToken" = false := by
    simp [strictEqStr]
  simp only [handler, beq_iff_eq, hm, if_false]
  rw [runTry, hb]
  simp only [ha, hne, Bool.false_eq_true, if_false, strictEqStr_self, if_true,
    hauth, bne_self_eq_false, Bool.false_eq_true, if_false, hs, ht]
  rcases sId with _ | sv
  · rcases hT with _ | hv <;> rfl
  · rcases hT with _ | hv
    · rfl
    · have : (!truthy (some sv) || !truthy (some hv)) = true := by
        rcases hmiss with h | h <;> simp [h]
      simp only [this, if_true]

/-! Concrete fixtures used by witnesses -/

def cfgW : SecretConfig :=
  { SEATSIO_SECRET_KEY := "sk-test", SEATSIO_EVENT_KEY := "event-2024"
    GHL_WEBHOOK_SECRET := "whs" }

def upW : Upstream :=
  { holdResp := { ok := true, text := ""
                  json := .ok (.obj (.cons "holdToken" (.str "tok123") .nil)) }
    bookResp := { ok := true, text := "", json := .ok .null } }

def upFail : Upstream :=
  { holdResp := { ok := false, text := "hold failed", json := .ok .null }
    bookResp := { ok := false, text := "book failed", json := .ok .null } }

def bookBody (sv hv : Json) : Json :=
  .obj (.cons "action" (.str "bookSeat") (.cons "seatId" sv (.cons "holdToken" hv .nil)))

def missingParamsResponse : Response :=
  { statusCode := 500, headers := corsHeaders
    body := stringifyLit [("error",
      some (.str "Missing required parameters: seatId or holdToken."))] }

/-! Claim theorems -/

/-- C1: a bookSeat request whose Authorization header is absent or not
exactly the string Bearer followed by the webhook secret gets status 401
with body Unauthorized, no outbound call is made, and this happens for
every body shape, i.e. before seatId/holdToken are even examined. -/
theorem c1_bookSeat_unauthorized (cfg : SecretConfig) (up : Upstream) (ev : Event)
    (v : Json)
    (hm : ev.httpMethod ≠ "OPTIONS")
    (hb : parseBody ev.body = .ok v)
    (ha : getProp v "action" = .ok (some (.str "bookSeat")))
    (hauth : ev.authorization ≠ some ("Bearer " ++ cfg.GHL_WEBHOOK_SECRET)) :
    handler cfg up ev =
      ({ statusCode := 401, headers := [], body := "Unauthorized" }, []) := by
  have hne : strictEqStr (some (Json.str "bookSeat")) "createHoldToken" = false := by
    simp [strictEqStr]
  simp only [handler, beq_iff_eq, hm, if_false]
  rw [runTry, hb]
  simp [ha, hne, strictEqStr_self, hauth]

/-- Witness for C1: a concrete bookSeat request with no Authorization
header is answered 401/Unauthorized with no outbound call. -/
theorem c1_witness :
    handler cfgW upW
      { httpMethod := "POST", authorization := none
        body := .wellFormed (.obj (.cons "action" (.str "bookSeat") .nil)) } =
      ({ statusCode := 401, headers := [], body := "Unauthorized" }, []) :=
  c1_bookSeat_unauthorized cfgW upW _ (.obj (.cons "action" (.str "bookSeat") .nil))
    (by decide) rfl rfl (by simp)

/-- C6: an authorized bookSeat request missing seatId or holdToken gets
status 500 with the missing-required-parameters message and no outbound
call. -/
theorem c6_bookSeat_missing_field (cfg : SecretConfig) (up : Upstream) (ev : Event)
    (v : Json) (sId hT : Option Json)
    (hm : ev.httpMethod ≠ "OPTIONS")
    (hb : parseBody ev.body = .ok v)
    (ha : getProp v "action" = .ok (some (.str "bookSeat")))
    (hauth : ev.authorization = some ("Bearer " ++ cfg.GHL_WEBHOOK_SECRET))
    (hs : getProp v "seatId" = .ok sId)
    (ht : getProp v "holdToken" = .ok hT)
    (hmiss : sId = none ∨ hT = none) :
    handler cfg up ev = (missingParamsResponse, []) :=
  handler_bookSeat_missing cfg up ev v sId hT hm hb ha hauth hs ht
    (by rcases hmiss with h | h <;> subst h <;> simp [truthy])

/-- Witness for C6: an authorized bookSeat request whose body lacks both
fields is answered with the missing-parameters 500 and no outbound call. -/
theorem c6_witness :
    handler cfgW upW
      { httpMethod := "POST", authorization := some "Bearer whs"
        body := .wellFormed (.obj (.cons "action" (.str "bookSeat") .nil)) } =
      (missingParamsResponse, []) :=
  c6_bookSeat_missing_field cfgW upW _ (.obj (.cons "action" (.str "bookSeat") .nil))
    none none (by decide) rfl rfl rfl rfl rfl (Or.inl rfl)

/-- C10: an authorized bookSeat request in which seatId or holdToken is
present but bound to a falsy JSON value (empty string, 0, false or null)
is treated exactly like a missing field: 500 missing-parameters response
and no outbound call. -/
theorem c10_falsy_field_treated_missing (cfg : SecretConfig) (up : Upstream)
    (ev : Event) (v : Json) (sId hT : Option Json)
    (hm : ev.httpMethod ≠ "OPTIONS")
    (hb : parseBody ev.body = .ok v)
    (ha : getProp v "action" = .ok (some (.str "bookSeat")))
    (hauth : ev.authorization = some ("Bearer " ++ cfg.GHL_WEBHOOK_SECRET))
    (hs : getProp v "seatId" = .ok sId)
    (ht : getProp v "holdToken" = .ok hT)
    (hfalsy :
      (∃ fv, sId = some fv ∧
        (fv = Json.str "" ∨ fv = Json.num 0 ∨ fv = Json.bool false ∨ fv = Json.null)) ∨
      (∃ fv, hT = some fv ∧
        (fv = Json.str "" ∨ fv = Json.num 0 ∨ fv = Json.bool false ∨ fv = Json.null))) :
    handler cfg up ev = (missingParamsResponse, []) :=
  handler_bookSeat_missing cfg up ev v sId hT hm hb ha hauth hs ht
    (by
      rcases hfalsy with ⟨fv, hfv, hc⟩ | ⟨fv, hfv, hc⟩ <;> subst hfv <;>
        [left; right] <;>
        rcases hc with h | h | h | h <;> subst h <;> simp [truthy])

/-- Witness for C10: an authorized bookSeat request with seatId bound to
the empty string is answered with the missing-parameters 500 and no
outbound call. -/
theorem c10_witness :
    handler cfgW upW
      { httpMethod := "POST", authorization := some "Bearer whs"
        body := .wellFormed (bookBody (.str "") (.str "tok123")) } =
      (missingParamsResponse, []) :=
  c10_falsy_field_treated_missing cfgW upW _ (bookBody (.str "") (.str "tok123"))
    (some (.str "")) (some (.str "tok123")) (by decide) rfl rfl rfl rfl rfl
    (Or.inl ⟨.str "", rfl, Or.inl rfl⟩)

/-- C7: every OPTIONS request is answered 204 with empty body and the
CORS headers, whatever the body holds, with no outbound call. -/
theorem c7_preflight (cfg : SecretConfig) (up : Upstream) (ev : Event)
    (hm : ev.httpMethod = "OPTIONS") :
    handler cfg up ev =
      ({ statusCode := 204, headers := corsHeaders, body := "" }, []) := by
  simp [handler, hm]

/-- Witness for C7: a concrete OPTIONS request carrying a malformed body
is still answered 204 with empty body and CORS headers. -/
theorem c7_witness :
    handler cfgW upW
      { httpMethod := "OPTIONS", authorization := none
        body := .malformed "Unexpected token" } =
      ({ statusCode := 204, headers := corsHeaders, body := "" }, []) :=
  c7_preflight cfgW upW _ rfl

/-- C8: a non-OPTIONS request whose parsed body (an absent body parsing
as the empty object) has no action field, or an action that is neither
createHoldToken nor bookSeat, is answered 500 with the invalid-action
message and no outbound call. -/
theorem c8_invalid_action (cfg : SecretConfig) (up : Upstream) (ev : Event)
    (v : Json) (act : Option Json)
    (hm : ev.httpMethod ≠ "OPTIONS")
    (hb : parseBody ev.body = .ok v)
    (ha : getProp v "action" = .ok act)
    (h1 : act ≠ some (.str "createHoldToken"))
    (h2 : act ≠ some (.str "bookSeat")) :
    handler cfg up ev =
      ({ statusCode := 500, headers := corsHeaders
         body := stringifyLit [("error",
           some (.str "Invalid action specified in request body."))] }, []) := by
  simp only [handler, beq_iff_eq, hm, if_false]
  rw [runTry, hb]
  simp only [ha, strictEqStr_eq_false_of_ne h1, strictEqStr_eq_false_of_ne h2,
    Bool.false_eq_true, if_false]

/-- Witness for C8: a POST with an absent body is answered 500 with the
invalid-action message and no outbound call. -/
theorem c8_witness :
    handler cfgW upW { httpMethod := "POST", authorization := none, body := .absent } =
      ({ statusCode := 500, headers := corsHeaders
         body := stringifyLit [("error",
           some (.str "Invalid action specified in request body."))] }, []) :=
  c8_invalid_action cfgW upW _ (.obj .nil) none (by decide) rfl rfl
    (by simp) (by simp)

/-- C2: an authorized bookSeat request with truthy seatId and holdToken
makes exactly one outbound booking call whose JSON body lists the seat
and echoes the hold token verbatim, and on upstream success answers 200
with the success acknowledgment naming the seat. -/
theorem c2_bookSeat_success (cfg : SecretConfig) (up : Upstream) (ev : Event)
    (v : Json) (sv hv : Json) (cred : String)
    (hm : ev.httpMethod ≠ "OPTIONS")
    (hb : parseBody ev.body = .ok v)
    (ha : getProp v "action" = .ok (some (.str "bookSeat")))
    (hauth : ev.authorization = some ("Bearer " ++ cfg.GHL_WEBHOOK_SECRET))
    (hs : getProp v "seatId" = .ok (some sv))
    (hst : truthy (some sv) = true)
    (ht : getProp v "holdToken" = .ok (some hv))
    (htt : truthy (some hv) = true)
    (hcred : btoa (cfg.SEATSIO_SECRET_KEY ++ ":") = some cred)
    (hok : up.bookResp.ok = true) :
    handler cfg up ev =
      ({ statusCode := 200, headers := corsHeaders
         body := stringifyLit [("success", some (.bool true)),
           ("message", some (.str
             ("Seat " ++ jsToString sv ++ " booked successfully.")))] },
       [bookCall cred cfg.SEATSIO_EVENT_KEY sv hv]) := by
  have hne : strictEqStr (some (Json.str "bookSeat")) "createHoldToken" = false := by
    simp [strictEqStr]
  simp only [handler, beq_iff_eq, hm, if_false]
  rw [runTry, hb]
  simp [ha, hne, strictEqStr_self, hauth, hs, ht, hst, htt, hcred, hok]

/-- Witness for C2: a concrete authorized booking of seat A-1 with hold
token tok123 produces the booking call and the 200 acknowledgment. -/
theorem c2_witness :
    handler cfgW upW
      { httpMethod := "POST", authorization := some "Bearer whs"
        body := .wellFormed (bookBody (.str "A-1") (.str "tok123")) } =
      ({ statusCode := 200, headers := corsHeaders
         body := stringifyLit [("success", some (.bool true)),
           ("message", some (.str
             ("Seat " ++ jsToString (.str "A-1") ++ " booked successfully.")))] },
       [bookCall "c2stdGVzdDo=" cfgW.SEATSIO_EVENT_KEY (.str "A-1") (.str "tok123")]) :=
  c2_bookSeat_success cfgW upW _ (bookBody (.str "A-1") (.str "tok123"))
    (.str "A-1") (.str "tok123") "c2stdGVzdDo=" (by decide) rfl rfl rfl rfl rfl rfl rfl
    (by decide) rfl

/-- C3: a createHoldToken request whose upstream call succeeds is
answered 200, with CORS headers, and a body holding exactly the hold
token extracted from the upstream JSON and the configured event key. -/
theorem c3_createHoldToken_success (cfg : SecretConfig) (up : Upstream) (ev : Event)
    (v j tok : Json) (cred : String)
    (hm : ev.httpMethod ≠ "OPTIONS")
    (hb : parseBody ev.body = .ok v)
    (ha : getProp v "action" = .ok (some (.str "createHoldToken")))
    (hcred : btoa (cfg.SEATSIO_SECRET_KEY ++ ":") = some cred)
    (hok : up.holdResp.ok = true)
    (hj : up.holdResp.json = .ok j)
    (htok : getProp j "holdToken" = .ok (some tok)) :
    handler cfg up ev =
      ({ statusCode := 200, headers := corsHeaders
         body := stringifyLit [("holdToken", some tok),
           ("eventKey", some (.str cfg.SEATSIO_EVENT_KEY))] },
       [holdCall cred]) := by
  simp only [handler, beq_iff_eq, hm, if_false]
  rw [runTry, hb]
  simp [ha, strictEqStr_self, hcred, hok, hj, htok]

/-- Witness for C3: a concrete createHoldToken request against an
upstream answering tok123 yields the 200 response with tok123 and the
configured event key. -/
theorem c3_witness :
    handler cfgW upW
      { httpMethod := "POST", authorization := none
        body := .wellFormed (.obj (.cons "action" (.str "createHoldToken") .nil)) } =
      ({ statusCode := 200, headers := corsHeaders
         body := stringifyLit [("holdToken", some (.str "tok123")),
           ("eventKey", some (.str cfgW.SEATSIO_EVENT_KEY))] },
       [holdCall "c2stdGVzdDo="]) :=
  c3_createHoldToken_success cfgW upW _
    (.obj (.cons "action" (.str "createHoldToken") .nil))
    (.obj (.cons "holdToken" (.str "tok123") .nil)) (.str "tok123") "c2stdGVzdDo="
    (by decide) rfl rfl (by decide) rfl rfl rfl

/-- C4: on either upstream call, a non-success upstream status yields a
500 whose error body embeds the upstream response text, and the single
outbound call is not retried. -/
theorem c4_upstream_failure_500 (cfg : SecretConfig) (up : Upstream) (ev : Event)
    (v : Json)
    (hm : ev.httpMethod ≠ "OPTIONS")
    (hb : parseBody ev.body = .ok v) :
    (∀ cred,
      getProp v "action" = .ok (some (.str "createHoldToken")) →
      btoa (cfg.SEATSIO_SECRET_KEY ++ ":") = some cred →
      up.holdResp.ok = false →
      handler cfg up ev =
        ({ statusCode := 500, headers := corsHeaders
           body := stringifyLit [("error",
             some (.str ("seats.io API error: " ++ up.holdResp.text)))] },
         [holdCall cred]))
    ∧
    (∀ cred sv hv,
      getProp v "action" = .ok (some (.str "bookSeat")) →
      ev.authorization = some ("Bearer " ++ cfg.GHL_WEBHOOK_SECRET) →
      getProp v "seatId" = .ok (some sv) → truthy (some sv) = true →
      getProp v "holdToken" = .ok (some hv) → truthy (some hv) = true →
      btoa (cfg.SEATSIO_SECRET_KEY ++ ":") = some cred →
      up.bookResp.ok = false →
      handler cfg up ev =
        ({ statusCode := 500, headers := corsHeaders
           body := stringifyLit [("error",
             some (.str ("seats.io API error during booking: " ++ up.bookResp.text)))] },
         [bookCall cred cfg.SEATSIO_EVENT_KEY sv hv])) := by
  constructor
  · intro cred ha hcred hok
    simp only [handler, beq_iff_eq, hm, if_false]
    rw [runTry, hb]
    simp [ha, strictEqStr_self, hcred, hok]
  · intro cred sv hv ha hauth hs hst ht htt hcred hok
    have hne : strictEqStr (some (Json.str "bookSeat")) "createHoldToken" = false := by
      simp [strictEqStr]
    simp only [handler, beq_iff_eq, hm, if_false]
    rw [runTry, hb]
    simp [ha, hne, strictEqStr_self, hauth, hs, ht, hst, htt, hcred, hok]

/-- Witness for C4: with an upstream that fails both calls, a concrete
createHoldToken request and a concrete authorized booking request each
get a 500 whose error body embeds the upstream failure text, after
exactly one outbound call. -/
theorem c4_witness :
    (handler cfgW upFail
      { httpMethod := "POST", authorization := none
        body := .wellFormed (.obj (.cons "action" (.str "createHoldToken") .nil)) } =
      ({ statusCode := 500, headers := corsHeaders
         body := stringifyLit [("error",
           some (.str ("seats.io API error: " ++ "hold failed")))] },
       [holdCall "c2stdGVzdDo="]))
    ∧
    (handler cfgW upFail
      { httpMethod := "POST", authorization := some "Bearer whs"
        body := .wellFormed (bookBody (.str "A-1") (.str "tok123")) } =
      ({ statusCode := 500, headers := corsHeaders
         body := stringifyLit [("error",
           some (.str ("seats.io API error during booking: " ++ "book failed")))] },
       [bookCall "c2stdGVzdDo=" cfgW.SEATSIO_EVENT_KEY (.str "A-1") (.str "tok123")])) :=
  ⟨(c4_upstream_failure_500 cfgW upFail
      { httpMethod := "POST", authorization := none
        body := .wellFormed (.obj (.cons "action" (.str "createHoldToken") .nil)) }
      (.obj (.cons "action" (.str "createHoldToken") .nil)) (by decide) rfl).1
      "c2stdGVzdDo=" rfl (by decide) rfl,
   (c4_upstream_failure_500 cfgW upFail
      { httpMethod := "POST", authorization := some "Bearer whs"
        body := .wellFormed (bookBody (.str "A-1") (.str "tok123")) }
      (bookBody (.str "A-1") (.str "tok123")) (by decide) rfl).2
      "c2stdGVzdDo=" (.str "A-1") (.str "tok123") rfl rfl rfl rfl rfl rfl
      (by decide) rfl⟩

/-- Every response the try block can return carries status 200 with the
CORS headers, or is the bare 401 Unauthorized response. -/
lemma runTry_ok_shape (cfg : SecretConfig) (up : Upstream) (ev : Event)
    (r : Response) (calls : List OutboundCall)
    (h : runTry cfg up ev = (.ok r, calls)) :
    (r.statusCode = 200 ∧ r.headers = corsHeaders) ∨
    r = { statusCode := 401, headers := [], body := "Unauthorized" } := by
  unfold runTry at h
  repeat' split at h
  all_goals try simp_all
  all_goals
    obtain ⟨h1, h2⟩ := h
    subst h1
    exact Or.inl ⟨rfl, rfl⟩

/-- C5: the handler always answers exactly once and no fault escapes:
every failure raised inside dispatch is converted at the single catch
boundary into the 500 response with CORS headers and the JSON error
body for that failure message, with the outbound calls made before the
throw preserved; in particular a malformed JSON body on a non-OPTIONS
request yields the 500 JSON error carrying the parse message and no
outbound call; and every response whatsoever is the 204 preflight, a
200 with CORS headers, or such a 500 — with the sole exception of the
bookSeat Unauthorized case, the bare 401 without CORS headers and
without the JSON error formatting. -/
theorem c5_single_error_boundary (cfg : SecretConfig) (up : Upstream) (ev : Event) :
    (∀ m calls, ev.httpMethod ≠ "OPTIONS" → runTry cfg up ev = (.error m, calls) →
      handler cfg up ev =
        ({ statusCode := 500, headers := corsHeaders
           body := stringifyLit [("error", some (.str m))] }, calls)) ∧
    (∀ msg, ev.httpMethod ≠ "OPTIONS" → ev.body = .malformed msg →
      handler cfg up ev =
        ({ statusCode := 500, headers := corsHeaders
           body := stringifyLit [("error", some (.str msg))] }, [])) ∧
    ((handler cfg up ev).1 = { statusCode := 204, headers := corsHeaders, body := "" } ∨
     ((handler cfg up ev).1.statusCode = 200 ∧ (handler cfg up ev).1.headers = corsHeaders) ∨
     (handler cfg up ev).1 = { statusCode := 401, headers := [], body := "Unauthorized" } ∨
     (∃ msg, (handler cfg up ev).1 =
       { statusCode := 500, headers := corsHeaders
         body := stringifyLit [("error", some (.str msg))] })) := by
  refine ⟨?_, ?_, ?_⟩
  · intro m calls hm hrt
    simp [handler, hm, hrt]
  · intro msg hm hbody
    simp [handler, runTry, parseBody, hm, hbody]
  · by_cases hm : ev.httpMethod = "OPTIONS"
    · left
      simp [handler, hm]
    · rcases hrt : runTry cfg up ev with ⟨res, calls⟩
      cases res with
      | ok r =>
        rcases runTry_ok_shape cfg up ev r calls hrt with h | h
        · right; left
          simp [handler, hm, hrt, h.1, h.2]
        · right; right; left
          simp [handler, hm, hrt, h]
      | error m =>
        right; right; right
        exact ⟨m, by simp [handler, hm, hrt]⟩

/-- Witness for C5: a concrete POST whose body is malformed JSON is
answered by the 500 CORS response whose JSON error body carries the
parse failure message, with no outbound call. -/
theorem c5_witness :
    handler cfgW upW
      { httpMethod := "POST", authorization := none
        body := .malformed "Unexpected token x in JSON at position 0" } =
      ({ statusCode := 500, headers := corsHeaders
         body := stringifyLit [("error",
           some (.str "Unexpected token x in JSON at position 0"))] }, []) :=
  (c5_single_error_boundary cfgW upW
    { httpMethod := "POST", authorization := none
      body := .malformed "Unexpected token x in JSON at position 0" }).2.1
    "Unexpected token x in JSON at position 0" (by decide) rfl

/-- Counterexample to C9 as stated: on a concrete createHoldToken
request with a successful upstream, the configured event identifier (one
of the three secrets named by the claim) occurs in the response body. -/
theorem c9_counterexample :
    occursIn cfgW.SEATSIO_EVENT_KEY
      (handler cfgW upW
        { httpMethod := "POST", authorization := none
          body := .wellFormed (.obj (.cons "action" (.str "createHoldToken") .nil)) }).1.body
      = true := by
  decide

/-- The response of the try block does not depend on the secret key or
the webhook secret beyond the bearer comparison and the encodability of
the key: two configurations sharing the event key agree on it. -/
lemma runTry_resp_independent (cfg1 cfg2 : SecretConfig) (up : Upstream) (ev : Event)
    (hek : cfg1.SEATSIO_EVENT_KEY = cfg2.SEATSIO_EVENT_KEY)
    (hauth : (ev.authorization == some ("Bearer " ++ cfg1.GHL_WEBHOOK_SECRET))
           = (ev.authorization == some ("Bearer " ++ cfg2.GHL_WEBHOOK_SECRET)))
    (hkey : (btoa (cfg1.SEATSIO_SECRET_KEY ++ ":")).isSome
          = (btoa (cfg2.SEATSIO_SECRET_KEY ++ ":")).isSome) :
    (runTry cfg1 up ev).1 = (runTry cfg2 up ev).1 := by
  have hcond : (ev.authorization != some ("Bearer " ++ cfg2.GHL_WEBHOOK_SECRET))
             = (ev.authorization != some ("Bearer " ++ cfg1.GHL_WEBHOOK_SECRET)) := by
    simp only [bne, hauth]
  unfold runTry
  rw [hek, hcond]
  repeat' split
  all_goals simp_all

/-- C9 amended: the reservation-API secret key and the webhook shared
secret never influence the response — two configurations with the same
event key, the same bearer-comparison outcome and encodable keys get
identical responses on every request, so neither secret can be echoed;
the event identifier, by contrast, is intentionally returned in the
createHoldToken success body. -/
theorem c9_secret_key_webhook_secret_noninterference
    (cfg1 cfg2 : SecretConfig) (up : Upstream) (ev : Event)
    (hek : cfg1.SEATSIO_EVENT_KEY = cfg2.SEATSIO_EVENT_KEY)
    (hauth : (ev.authorization == some ("Bearer " ++ cfg1.GHL_WEBHOOK_SECRET))
           = (ev.authorization == some ("Bearer " ++ cfg2.GHL_WEBHOOK_SECRET)))
    (hkey : (btoa (cfg1.SEATSIO_SECRET_KEY ++ ":")).isSome
          = (btoa (cfg2.SEATSIO_SECRET_KEY ++ ":")).isSome) :
    (handler cfg1 up ev).1 = (handler cfg2 up ev).1 := by
  by_cases hm : ev.httpMethod = "OPTIONS"
  · simp [handler, hm]
  · have h := runTry_resp_independent cfg1 cfg2 up ev hek hauth hkey
    rcases hr1 : runTry cfg1 up ev with ⟨res1, l1⟩
    rcases hr2 : runTry cfg2 up ev with ⟨res2, l2⟩
    rw [hr1, hr2] at h
    have h2 : res1 = res2 := h
    subst h2
    simp only [handler, beq_iff_eq, hm, if_false, hr1, hr2]
    cases res1 <;> rfl

def cfgW2 : SecretConfig :=
  { SEATSIO_SECRET_KEY := "sk-other", SEATSIO_EVENT_KEY := "event-2024"
    GHL_WEBHOOK_SECRET := "whs-other" }

/-- Witness for the amended C9: two concrete configurations differing in
secret key and webhook secret but agreeing on the event key produce the
same response to a concrete createHoldToken request. -/
theorem c9_witness :
    (handler cfgW upW
      { httpMethod := "POST", authorization := none
        body := .wellFormed (.obj (.cons "action" (.str "createHoldToken") .nil)) }).1 =
    (handler cfgW2 upW
      { httpMethod := "POST", authorization := none
        body := .wellFormed (.obj (.cons "action" (.str "createHoldToken") .nil)) }).1 :=
  c9_secret_key_webhook_secret_noninterference cfgW cfgW2 upW _ rfl rfl (by decide)

end SeatsIO
